import Mathlib

/-!
Verification development for the repository's visualization helper module
(`utils/vae_plots.py`, shipped inside the repo in compiled form).  The module
consists of six independent plotting functions; we shallowly embed each one
the claims need.  Numeric tensor entries are modelled as rationals, the
display sink (visdom) as a trace of image-append calls, and the filesystem
as an explicit state threaded through the loss-curve function.
-/

namespace VaePlots

/-- Failures raised by the underlying numeric/plotting libraries.  The helper
functions contain no try/except, so these are the only failure payloads that
can surface. -/
inductive PyError where
  | shapeMismatch (expected got : Nat) : PyError
  | valueError (msg : String) : PyError
  | fileExistsError (path : String) : PyError
deriving DecidableEq, Repr

/-- Source: `ys[i] = torch.zeros(1, 10); ys[i][0, i] = 1` — the one-hot label
row used by `plot_conditional_samples_ssvae` (the leading batch dimension of
size 1 is dropped in the embedding). -/
def onehot (i : Nat) : List ℚ :=
  (List.range 10).map (fun j => if j = i then 1 else 0)

/-- Source: `xs = torch.zeros(1, 784)` — the blank image fed to the model. -/
def xs0 : List ℚ := List.replicate 784 0

/-- Row-major reshape of a flat vector into 28 rows of 28 entries, the data
part of `tensor.view(1, 28, 28)`. -/
def reshape28 (v : List ℚ) : List (List ℚ) :=
  (List.range 28).map (fun r => (List.range 28).map (fun c => v.getD (r * 28 + c) 0))

/-- Source: `sample_loc_i[0].view(1, 28, 28)` — succeeds exactly when the
flattened sample has 1*28*28 elements, otherwise raises the library's
shape-mismatch failure. -/
def view_1_28_28 (v : List ℚ) : Except PyError (List (List ℚ)) :=
  if v.length = 1 * 28 * 28 then Except.ok (reshape28 v)
  else Except.error (PyError.shapeMismatch (1 * 28 * 28) v.length)

/-- Sequencing of fallible steps over a list, stopping at the first failure,
exactly as a Python for-loop building up a local list does. -/
def exceptList {α β ε : Type} (f : α → Except ε β) : List α → Except ε (List β)
  | [] => Except.ok []
  | a :: l =>
    match f a, exceptList f l with
    | Except.error e, _ => Except.error e
    | Except.ok _, Except.error e => Except.error e
    | Except.ok b, Except.ok bs => Except.ok (b :: bs)

/-- One `vis.images(images, 10, 2)` call recorded on the display sink. -/
structure VisCall where
  images : List (List (List ℚ))
  nrow : Nat
  padding : Nat
deriving DecidableEq, Repr

/-- Source: the body of the outer `for i in range(10)` loop of
`plot_conditional_samples_ssvae`: draw 100 samples for label `i`, reshape each
to 28x28, then append the whole batch to the display sink; labels processed
before a failing one keep their calls, the failure aborts the rest. -/
def condLoop (model : List ℚ → List ℚ → Nat → List ℚ) :
    List Nat → List VisCall × Option PyError
  | [] => ([], none)
  | i :: rest =>
    match exceptList (fun rr => view_1_28_28 (model xs0 (onehot i) rr)) (List.range 100) with
    | Except.error e => ([], some e)
    | Except.ok imgs =>
      let r := condLoop model rest
      (⟨imgs, 10, 2⟩ :: r.1, r.2)

/-- Source: `plot_conditional_samples_ssvae(ssvae, visdom_session)`.  The
stochastic generative model `ssvae.model(xs, ys[i])` is abstracted as a
function of the blank image, the one-hot label and the draw index `rr`.
Returns the trace of image-append calls and the failure that aborted the run,
if any. -/
def plot_conditional_samples_ssvae (model : List ℚ → List ℚ → Nat → List ℚ) :
    List VisCall × Option PyError :=
  condLoop model (List.range 10)

/-- One point row of the long-form table `plot_llk` builds:
`{"Epoch": key, "ELBO": -val, "dataset": split}`. -/
structure Row where
  epoch : Nat
  elbo : ℚ
  dataset : String
deriving DecidableEq, Repr

/-- The chart `plot_llk` renders: the concatenated data frame
(`pd.concat([df1, df2], axis=0)`) together with the facet-grid hue column
(`hue="dataset"`); the rows are the plotted points, the hue groups the
colored series. -/
structure LlkChart where
  rows : List Row
  hue : String
deriving DecidableEq, Repr

/-- Source: `df1` (Train rows, epochs from `train_elbo.keys()`, ELBO values
negated) concatenated with `df2` (Test rows) along axis 0, wrapped in the
facet grid keyed on the `dataset` column. -/
def renderLlk (train_elbo test_elbo : List (Nat × ℚ)) : LlkChart :=
  ⟨(train_elbo.map (fun p => ⟨p.1, -p.2, "Train"⟩)) ++
      (test_elbo.map (fun p => ⟨p.1, -p.2, "Test"⟩)), "dataset"⟩

/-- Filesystem state: the directories that exist and the chart files written
so far (most recent write first, older writes to the same path removed). -/
structure FS where
  dirs : List String
  files : List (String × LlkChart)
deriving DecidableEq

/-- Modelled from the spec: `pathlib.Path(p).mkdir(parents=True, exist_ok=True)`
(third-party, not in src/) — creates the directory when absent and, because
`exist_ok` is passed, succeeds when it already exists; with `exist_ok=False`
an existing directory raises FileExistsError. -/
def pathMkdir (p : String) (parents exist_ok : Bool) (fs : FS) : Except PyError FS :=
  if p ∈ fs.dirs then
    if exist_ok then Except.ok fs else Except.error (PyError.fileExistsError p)
  else Except.ok ⟨p :: fs.dirs, fs.files⟩

/-- Modelled from the spec: `plt.savefig(path)` (third-party, not in src/) —
writes the figure at `path`, silently overwriting any existing file there. -/
def writeFile (p : String) (c : LlkChart) (fs : FS) : FS :=
  ⟨fs.dirs, (p, c) :: fs.files.filter (fun pr => pr.1 != p)⟩

/-- Content of the filesystem at a path. -/
def filesLookup (fs : FS) (p : String) : Option LlkChart :=
  (fs.files.find? (fun pr => pr.1 == p)).map (fun pr => pr.2)

/-- Source: the fixed output path `"./vae_results/test_elbo_vae.png"` of
`plot_llk`. -/
def llkOutPath : String := "./vae_results/test_elbo_vae.png"

/-- Source: `plot_llk(train_elbo, test_elbo)` — create `vae_results`
(`parents=True, exist_ok=True`), build the two tagged data frames, render the
facet grid and save it at the fixed path.  The epoch→loss mappings are
modelled as association lists in insertion order. -/
def plot_llk (train_elbo test_elbo : List (Nat × ℚ)) (fs : FS) : Except PyError FS :=
  match pathMkdir "vae_results" true true fs with
  | Except.error e => Except.error e
  | Except.ok fs1 => Except.ok (writeFile llkOutPath (renderLlk train_elbo test_elbo) fs1)

/-- Modelled from the spec: `sklearn.manifold.TSNE(n_components, random_state)
.fit_transform(X)` (third-party, not in src/) — a stochastic reduction that is
deterministic once seeded: `tsneCore seed nComponents X` is the embedding the
algorithm computes from RNG seed `seed`; a fixed `random_state` pins the seed,
otherwise the ambient RNG state is used.  With zero observations the library's
input validation raises rather than producing an empty result. -/
def TSNE_fit_transform (tsneCore : Nat → Nat → List (List ℚ) → List (List ℚ))
    (nComponents : Nat) (randomState : Option Nat) (ambientSeed : Nat)
    (X : List (List ℚ)) : Except PyError (List (List ℚ)) :=
  if X.length = 0 then Except.error (PyError.valueError "Found array with 0 sample(s)")
  else Except.ok (tsneCore (randomState.getD ambientSeed) nComponents X)

/-- One `plt.scatter(z_embed[ind_class, 0], z_embed[ind_class, 1], s=10,
color=plt.cm.Set1(ic))` layer: the 2-D coordinates of the rows whose one-hot
label has a 1 in column `ic`, with the color index and marker size. -/
structure ScatterLayer where
  xcoords : List ℚ
  ycoords : List ℚ
  colorIdx : Nat
  size : Nat
deriving DecidableEq, Repr

/-- Source: the mask `ind_class = classes[:, ic] == 1` applied to `z_embed`,
then columns 0 and 1 of the selected rows. -/
def tsneScatter (z_embed classes : List (List ℚ)) (ic : Nat) : ScatterLayer :=
  let sel := (z_embed.zip classes).filter (fun p => p.2.getD ic 0 == 1)
  ⟨sel.map (fun p => p.1.getD 0 0), sel.map (fun p => p.1.getD 1 0), ic, 10⟩

/-- The matplotlib figure state of `plot_tsne`: the scatter layers drawn so
far and the title. -/
structure TsneFig where
  layers : List ScatterLayer
  title : String
deriving DecidableEq, Repr

/-- Figure state after iterations 0..ic of the class loop: one scatter layer
per class index so far, title as set by `plt.title`. -/
def tsneFigUpTo (z_embed classes : List (List ℚ)) (ic : Nat) : TsneFig :=
  ⟨(List.range (ic + 1)).map (tsneScatter z_embed classes),
    "Latent Variable T-SNE per Class"⟩

/-- Source: `"./vae_results/" + str(name) + "_embedding_" + str(ic) + ".png"`. -/
def tsnePerClassPath (name : String) (ic : Nat) : String :=
  "./vae_results/" ++ name ++ "_embedding_" ++ toString ic ++ ".png"

/-- Source: `"./vae_results/" + str(name) + "_embedding.png"`. -/
def tsneAggPath (name : String) : String :=
  "./vae_results/" ++ name ++ "_embedding.png"

/-- Source: `plot_tsne(z_loc, classes, name)` — reduce the location vectors
with `TSNE(n_components=2, random_state=0)`, then `for ic in range(10)` add
the scatter layer for class column `ic` and save the figure at the per-class
path; after the loop save the figure once more at the aggregate path.
Returns the trace of file writes (path and figure content) in order, and the
failure that aborted the run, if any. -/
def plot_tsne (tsneCore : Nat → Nat → List (List ℚ) → List (List ℚ))
    (ambientSeed : Nat) (z_loc classes : List (List ℚ)) (name : String) :
    List (String × TsneFig) × Option PyError :=
  match TSNE_fit_transform tsneCore 2 (some 0) ambientSeed z_loc with
  | Except.error e => ([], some e)
  | Except.ok z_embed =>
    ((List.range 10).map (fun ic =>
        (tsnePerClassPath name ic, tsneFigUpTo z_embed classes ic)) ++
      [(tsneAggPath name, tsneFigUpTo z_embed classes 9)], none)

/-- Number of class columns (out of the 10 one-hot columns) that some row of
`classes` actually selects — the count of distinct classes present. -/
def distinctClassCount (classes : List (List ℚ)) : Nat :=
  ((List.range 10).filter (fun ic => classes.any (fun row => row.getD ic 0 == 1))).length

/-- Source: the held-out dataset reached through `test_loader.dataset`, with
its `test_data` features and `test_labels` one-hot labels. -/
structure VaeDataset where
  test_data : List (List ℚ)
  test_labels : List (List ℚ)

/-- Source: the `test_loader` collaborator, exposing its dataset. -/
structure DataLoader where
  dataset : VaeDataset

/-- Source: the `ssvae` collaborator, whose `encoder_z([xs, ys])` returns a
pair of per-observation location and scale vectors. -/
structure SSVAE where
  encoder_z : List (List ℚ) × List (List ℚ) → List (List ℚ) × List (List ℚ)

/-- Source: `mnist_test_tsne_ssvae(name=None, ssvae=None, test_loader=None)` —
fix the display name to "SS-VAE" when none is supplied, pull features and
labels from the loader, run the label-conditioned encoder and delegate to
`plot_tsne`. -/
def mnist_test_tsne_ssvae (tsneCore : Nat → Nat → List (List ℚ) → List (List ℚ))
    (ambientSeed : Nat) (name : Option String) (ssvae : SSVAE)
    (test_loader : DataLoader) : List (String × TsneFig) × Option PyError :=
  let name := name.getD "SS-VAE"
  let mnist_labels := test_loader.dataset.test_labels
  let zpair := ssvae.encoder_z (test_loader.dataset.test_data, mnist_labels)
  plot_tsne tsneCore ambientSeed zpair.1 mnist_labels name

/-- Generative model stub emitting well-shaped (length-784) samples, used to
instantiate the grid theorems at a concrete input. -/
def constModel : List ℚ → List ℚ → Nat → List ℚ := fun _ _ _ => List.replicate 784 0

/-- Generative model stub emitting malformed (length-5) samples, used to
exercise the failure path at a concrete input. -/
def badModel : List ℚ → List ℚ → Nat → List ℚ := fun _ _ _ => List.replicate 5 0

/-- Concrete reduction core (returns its input unchanged) used to instantiate
the embedding-plot theorems. -/
def idCore : Nat → Nat → List (List ℚ) → List (List ℚ) := fun _ _ X => X

/-- Concrete two-observation location input. -/
def cexZ : List (List ℚ) := [[0, 0], [1, 1]]

/-- Concrete one-hot labels in which only class 3 occurs (one distinct
class). -/
def cexClasses : List (List ℚ) :=
  [[0, 0, 0, 1, 0, 0, 0, 0, 0, 0], [0, 0, 0, 1, 0, 0, 0, 0, 0, 0]]

/-- Empty filesystem. -/
def emptyFS : FS := ⟨[], []⟩

/-- Concrete train mapping of the spec's example scenario. -/
def c9train : List (Nat × ℚ) := [(0, -120.5), (1, -100.2)]

/-- Concrete test mapping of the spec's example scenario. -/
def c9test : List (Nat × ℚ) := [(0, -130.0), (1, -110.7)]

theorem exceptList_eq_map {α β : Type} (f : α → Except PyError β) (g : α → β)
    (l : List α) (h : ∀ a ∈ l, f a = Except.ok (g a)) :
    exceptList f l = Except.ok (l.map g) := by
  induction l with
  | nil => rfl
  | cons a l ih =>
    have ha := h a (by simp)
    have hrest := ih (fun a ha => h a (by simp [ha]))
    simp [exceptList, ha, hrest]

theorem exceptList_error {α β : Type} (f : α → Except PyError β) (l : List α)
    (e : PyError) (h : exceptList f l = Except.error e) :
    ∃ a ∈ l, f a = Except.error e := by
  induction l with
  | nil => simp [exceptList] at h
  | cons a l ih =>
    cases hfa : f a with
    | error e1 =>
      refine ⟨a, by simp, ?_⟩
      rw [hfa]
      simp [exceptList, hfa] at h
      rw [h]
    | ok b =>
      cases hrest : exceptList f l with
      | error e2 =>
        simp [exceptList, hfa, hrest] at h
        obtain ⟨a', ha', hfa'⟩ := ih (by rw [hrest, h])
        exact ⟨a', by simp [ha'], hfa'⟩
      | ok bs => simp [exceptList, hfa, hrest] at h

theorem exceptList_ok_forall {α β : Type} (f : α → Except PyError β) (l : List α)
    (bs : List β) (h : exceptList f l = Except.ok bs) :
    ∀ a ∈ l, ∃ b, f a = Except.ok b := by
  induction l generalizing bs with
  | nil => simp
  | cons a l ih =>
    intro a' ha'
    cases hfa : f a with
    | error e1 => simp [exceptList, hfa] at h
    | ok b =>
      cases hrest : exceptList f l with
      | error e2 => simp [exceptList, hfa, hrest] at h
      | ok bs' =>
        rcases List.mem_cons.1 ha' with h1 | h1
        · exact ⟨b, by rw [h1, hfa]⟩
        · exact ih bs' hrest a' h1

theorem condLoop_ok (model : List ℚ → List ℚ → Nat → List ℚ) (labels : List Nat)
    (h : ∀ i ∈ labels, ∀ rr ∈ List.range 100, (model xs0 (onehot i) rr).length = 784) :
    condLoop model labels =
      (labels.map (fun i =>
        ⟨(List.range 100).map (fun rr => reshape28 (model xs0 (onehot i) rr)), 10, 2⟩),
       none) := by
  induction labels with
  | nil => rfl
  | cons i rest ih =>
    have h1 : exceptList (fun rr => view_1_28_28 (model xs0 (onehot i) rr)) (List.range 100)
        = Except.ok ((List.range 100).map (fun rr => reshape28 (model xs0 (onehot i) rr))) := by
      apply exceptList_eq_map
      intro rr hrr
      have := h i (by simp) rr hrr
      rw [view_1_28_28, if_pos (by rw [this])]
    have h2 := ih (fun j hj => h j (by simp [hj]))
    simp [condLoop, h1, h2]

theorem condLoop_error (model : List ℚ → List ℚ → Nat → List ℚ) (labels : List Nat)
    (e : PyError) (h : (condLoop model labels).2 = some e) :
    ∃ i ∈ labels, ∃ rr ∈ List.range 100,
      view_1_28_28 (model xs0 (onehot i) rr) = Except.error e := by
  induction labels with
  | nil => simp [condLoop] at h
  | cons i rest ih =>
    cases hc : exceptList (fun rr => view_1_28_28 (model xs0 (onehot i) rr)) (List.range 100) with
    | error e1 =>
      simp [condLoop, hc] at h
      obtain ⟨rr, hrr, hv⟩ := exceptList_error _ _ _ hc
      exact ⟨i, by simp, rr, hrr, by rw [hv, h]⟩
    | ok imgs =>
      simp [condLoop, hc] at h
      obtain ⟨i', hi', rr, hrr, hv⟩ := ih h
      exact ⟨i', by simp [hi'], rr, hrr, hv⟩

theorem condLoop_none (model : List ℚ → List ℚ → Nat → List ℚ) (labels : List Nat)
    (h : (condLoop model labels).2 = none) :
    ∀ i ∈ labels, ∀ rr ∈ List.range 100,
      ∃ img, view_1_28_28 (model xs0 (onehot i) rr) = Except.ok img := by
  induction labels with
  | nil => simp
  | cons i rest ih =>
    intro i' hi' rr hrr
    cases hc : exceptList (fun rr => view_1_28_28 (model xs0 (onehot i) rr)) (List.range 100) with
    | error e1 => simp [condLoop, hc] at h
    | ok imgs =>
      rcases List.mem_cons.1 hi' with h1 | h1
      · subst h1
        exact exceptList_ok_forall _ _ _ hc rr hrr
      · simp [condLoop, hc] at h
        exact ih h i' h1 rr hrr

/-- C1: for the fixed 10 labels and 100 samples per label,
`plot_conditional_samples_ssvae` completes without failure, issues exactly one
image-append call to the display sink per label (ten calls, the i-th carrying
label i's batch), each call carrying exactly 100 images, each image reshaped
to 28x28 — provided every flattened sample has length 784. -/
theorem plot_conditional_samples_ssvae_grid (model : List ℚ → List ℚ → Nat → List ℚ)
    (h : ∀ i ∈ List.range 10, ∀ rr ∈ List.range 100,
      (model xs0 (onehot i) rr).length = 784) :
    (plot_conditional_samples_ssvae model).2 = none ∧
    (plot_conditional_samples_ssvae model).1 =
      (List.range 10).map (fun i =>
        ⟨(List.range 100).map (fun rr => reshape28 (model xs0 (onehot i) rr)), 10, 2⟩) ∧
    (plot_conditional_samples_ssvae model).1.length = 10 ∧
    ∀ call ∈ (plot_conditional_samples_ssvae model).1,
      call.images.length = 100 ∧
      ∀ img ∈ call.images, img.length = 28 ∧ ∀ row ∈ img, row.length = 28 := by
  have e := condLoop_ok model (List.range 10) h
  unfold plot_conditional_samples_ssvae
  rw [e]
  refine ⟨rfl, rfl, by simp, ?_⟩
  intro call hcall
  simp only [List.mem_map, List.mem_range] at hcall
  obtain ⟨i, hi, rfl⟩ := hcall
  refine ⟨by simp, ?_⟩
  intro img himg
  simp only [List.mem_map, List.mem_range] at himg
  obtain ⟨rr, hrr, rfl⟩ := himg
  refine ⟨by simp [reshape28], ?_⟩
  intro row hrow
  simp only [reshape28, List.mem_map, List.mem_range] at hrow
  obtain ⟨r, hr, rfl⟩ := hrow
  simp

/-- Witness for C1 at a concrete well-shaped generative model. -/
theorem plot_conditional_samples_ssvae_grid_witness :
    (plot_conditional_samples_ssvae constModel).2 = none ∧
    (plot_conditional_samples_ssvae constModel).1 =
      (List.range 10).map (fun i =>
        ⟨(List.range 100).map (fun rr => reshape28 (constModel xs0 (onehot i) rr)), 10, 2⟩) ∧
    (plot_conditional_samples_ssvae constModel).1.length = 10 ∧
    ∀ call ∈ (plot_conditional_samples_ssvae constModel).1,
      call.images.length = 100 ∧
      ∀ img ∈ call.images, img.length = 28 ∧ ∀ row ∈ img, row.length = 28 :=
  plot_conditional_samples_ssvae_grid constModel
    (by intro i _ rr _
        show (List.replicate 784 (0 : ℚ)).length = 784
        exact List.length_replicate 784 0)

theorem writeFile_idem (p : String) (c : LlkChart) (fs : FS) :
    writeFile p c (writeFile p c fs) = writeFile p c fs := by
  simp [writeFile, List.filter_filter]

theorem writeFile_lookup (p : String) (c : LlkChart) (fs : FS) :
    filesLookup (writeFile p c fs) p = some c := by
  simp [writeFile, filesLookup, List.find?]

/-- C4: `plot_llk` is idempotent with respect to directory creation — it
succeeds on any starting filesystem (directory absent or present), creates
`vae_results`, overwrites whatever was at the fixed output path with the
rendered chart, and a second call with the same inputs succeeds and leaves
the very same filesystem. -/
theorem plot_llk_idempotent (train_elbo test_elbo : List (Nat × ℚ)) (fs : FS) :
    ∃ fs', plot_llk train_elbo test_elbo fs = Except.ok fs' ∧
      "vae_results" ∈ fs'.dirs ∧
      filesLookup fs' llkOutPath = some (renderLlk train_elbo test_elbo) ∧
      plot_llk train_elbo test_elbo fs' = Except.ok fs' := by
  by_cases hd : "vae_results" ∈ fs.dirs
  · refine ⟨writeFile llkOutPath (renderLlk train_elbo test_elbo) fs, ?_, ?_, ?_, ?_⟩
    · simp [plot_llk, pathMkdir, hd]
    · simpa [writeFile] using hd
    · exact writeFile_lookup _ _ _
    · have hd' : "vae_results" ∈ (writeFile llkOutPath (renderLlk train_elbo test_elbo) fs).dirs := by
        simpa [writeFile] using hd
      simp [plot_llk, pathMkdir, hd', writeFile_idem]
  · refine ⟨writeFile llkOutPath (renderLlk train_elbo test_elbo)
        ⟨"vae_results" :: fs.dirs, fs.files⟩, ?_, ?_, ?_, ?_⟩
    · simp [plot_llk, pathMkdir, hd]
    · simp [writeFile]
    · exact writeFile_lookup _ _ _
    · have hd' : "vae_results" ∈ (writeFile llkOutPath (renderLlk train_elbo test_elbo)
          ⟨"vae_results" :: fs.dirs, fs.files⟩).dirs := by simp [writeFile]
      simp [plot_llk, pathMkdir, hd', writeFile_idem]

/-- C9: on the spec's example scenario (train = 0 mapsto -120.5, 1 mapsto
-100.2; test = 0 mapsto -130.0, 1 mapsto -110.7) run on an empty filesystem,
`plot_llk` saves exactly one chart file, at the fixed path
`./vae_results/test_elbo_vae.png`; the chart holds exactly four plotted
points split over two hue ("dataset") series, Train and Test. -/
theorem plot_llk_example_scenario :
    plot_llk c9train c9test emptyFS =
      Except.ok ⟨["vae_results"], [(llkOutPath, renderLlk c9train c9test)]⟩ ∧
    (renderLlk c9train c9test).rows.length = 4 ∧
    ((renderLlk c9train c9test).rows.map (fun r => r.dataset)).dedup = ["Train", "Test"] ∧
    (renderLlk c9train c9test).rows =
      [⟨0, 120.5, "Train"⟩, ⟨1, 100.2, "Train"⟩, ⟨0, 130.0, "Test"⟩, ⟨1, 110.7, "Test"⟩] := by
  refine ⟨?_, rfl, by decide, by norm_num [renderLlk, c9train, c9test]⟩
  simp [plot_llk, pathMkdir, emptyFS, writeFile]

/-- C3: the 2-D embedding reduction inside `plot_tsne` is deterministic: the
call fixes `n_components = 2` and `random_state = 0`, so the reduced
coordinates — and with them the whole output of `plot_tsne` — do not depend
on the ambient RNG state; two invocations on identical location-vector input
produce identical 2-D coordinates. -/
theorem plot_tsne_deterministic (tsneCore : Nat → Nat → List (List ℚ) → List (List ℚ))
    (seedA seedB : Nat) (z_loc classes : List (List ℚ)) (name : String) :
    TSNE_fit_transform tsneCore 2 (some 0) seedA z_loc =
      TSNE_fit_transform tsneCore 2 (some 0) seedB z_loc ∧
    plot_tsne tsneCore seedA z_loc classes name =
      plot_tsne tsneCore seedB z_loc classes name :=
  ⟨rfl, rfl⟩

/-- C8: with zero observations the embedding reduction inside `plot_tsne`
fails with the library's insufficient-sample validation error, and no image
file is written — the function does not silently produce an empty plot. -/
theorem plot_tsne_zero_observations (tsneCore : Nat → Nat → List (List ℚ) → List (List ℚ))
    (ambientSeed : Nat) (classes : List (List ℚ)) (name : String) :
    plot_tsne tsneCore ambientSeed [] classes name =
      ([], some (PyError.valueError "Found array with 0 sample(s)")) := rfl

/-- C10: `plot_tsne` iterates over the fixed class indices 0..9 regardless of
which classes occur in the labels, so on any nonempty input it completes
without failure and writes exactly the ten per-class files (in index order)
followed by the one aggregate file — a class index selecting zero points
still gets its file. -/
theorem plot_tsne_eleven_files (tsneCore : Nat → Nat → List (List ℚ) → List (List ℚ))
    (ambientSeed : Nat) (z_loc classes : List (List ℚ)) (name : String)
    (h : z_loc ≠ []) :
    (plot_tsne tsneCore ambientSeed z_loc classes name).2 = none ∧
    (plot_tsne tsneCore ambientSeed z_loc classes name).1.map Prod.fst =
      (List.range 10).map (tsnePerClassPath name) ++ [tsneAggPath name] := by
  have hz : ¬ z_loc.length = 0 := by simpa [List.length_eq_zero] using h
  unfold plot_tsne TSNE_fit_transform
  rw [if_neg hz]
  simp

/-- Witness for C10 at a concrete input in which class 3 is the only class
present (so indices selecting zero points still get their file). -/
theorem plot_tsne_eleven_files_witness :
    (plot_tsne idCore 0 cexZ cexClasses "VAE").2 = none ∧
    (plot_tsne idCore 0 cexZ cexClasses "VAE").1.map Prod.fst =
      (List.range 10).map (tsnePerClassPath "VAE") ++ [tsneAggPath "VAE"] :=
  plot_tsne_eleven_files idCore 0 cexZ cexClasses "VAE" (by decide)

/-- Counterexample to C2 as stated: on a two-observation input whose one-hot
labels contain k = 1 distinct class, `plot_tsne` does not write k + 1 = 2
image files (it writes 11). -/
theorem plot_tsne_k_plus_one_false :
    ¬ ((plot_tsne idCore 0 cexZ cexClasses "VAE").1.length =
        distinctClassCount cexClasses + 1) := by decide

/-- C2 (amended): on any nonempty input `plot_tsne` writes exactly 11 image
files — one per fixed class index 0..9 plus one aggregate — independently of
the number k of distinct classes in the labels; this equals k + 1 exactly
when all 10 classes occur. -/
theorem plot_tsne_file_count (tsneCore : Nat → Nat → List (List ℚ) → List (List ℚ))
    (ambientSeed : Nat) (z_loc classes : List (List ℚ)) (name : String)
    (h : z_loc ≠ []) :
    (plot_tsne tsneCore ambientSeed z_loc classes name).1.length = 11 ∧
    (distinctClassCount classes = 10 →
      (plot_tsne tsneCore ambientSeed z_loc classes name).1.length =
        distinctClassCount classes + 1) := by
  have hz : ¬ z_loc.length = 0 := by simpa [List.length_eq_zero] using h
  unfold plot_tsne TSNE_fit_transform
  rw [if_neg hz]
  constructor
  · simp
  · intro hk
    rw [hk]
    simp

/-- Witness for the amended C2 at a concrete one-class input. -/
theorem plot_tsne_file_count_witness :
    (plot_tsne idCore 1 cexZ cexClasses "SS-VAE").1.length = 11 ∧
    (distinctClassCount cexClasses = 10 →
      (plot_tsne idCore 1 cexZ cexClasses "SS-VAE").1.length =
        distinctClassCount cexClasses + 1) :=
  plot_tsne_file_count idCore 1 cexZ cexClasses "SS-VAE" (by decide)

/-- C7: with no display name supplied, `mnist_test_tsne_ssvae` fixes the name
to "SS-VAE" and delegates to `plot_tsne` with the encoder's location output
and the loader's labels. -/
theorem mnist_test_tsne_ssvae_default_name
    (tsneCore : Nat → Nat → List (List ℚ) → List (List ℚ)) (ambientSeed : Nat)
    (ssvae : SSVAE) (test_loader : DataLoader) :
    mnist_test_tsne_ssvae tsneCore ambientSeed none ssvae test_loader =
      plot_tsne tsneCore ambientSeed
        (ssvae.encoder_z (test_loader.dataset.test_data, test_loader.dataset.test_labels)).1
        test_loader.dataset.test_labels "SS-VAE" := rfl

theorem strAppendAssoc (a b c : String) : a ++ b ++ c = a ++ (b ++ c) := by
  cases a
  cases b
  cases c
  show String.mk _ = String.mk _
  rw [List.append_assoc]

/-- C5: the helper functions perform no input validation and no recovery:
whenever `plot_conditional_samples_ssvae` surfaces a failure it is exactly
the failure produced by one of its underlying reshape calls, a failure-free
run means no underlying call failed (nothing was swallowed), and whenever
`plot_tsne` surfaces a failure it is exactly the failure of its underlying
reduction call, propagated unmodified. -/
theorem vae_plots_no_validation_no_recovery (model : List ℚ → List ℚ → Nat → List ℚ)
    (tsneCore : Nat → Nat → List (List ℚ) → List (List ℚ)) (ambientSeed : Nat)
    (z_loc classes : List (List ℚ)) (name : String) :
    (∀ e, (plot_conditional_samples_ssvae model).2 = some e →
      ∃ i ∈ List.range 10, ∃ rr ∈ List.range 100,
        view_1_28_28 (model xs0 (onehot i) rr) = Except.error e) ∧
    ((plot_conditional_samples_ssvae model).2 = none →
      ∀ i ∈ List.range 10, ∀ rr ∈ List.range 100,
        ∃ img, view_1_28_28 (model xs0 (onehot i) rr) = Except.ok img) ∧
    (∀ e, (plot_tsne tsneCore ambientSeed z_loc classes name).2 = some e →
      TSNE_fit_transform tsneCore 2 (some 0) ambientSeed z_loc = Except.error e) := by
  refine ⟨?_, ?_, ?_⟩
  · intro e he
    exact condLoop_error model (List.range 10) e he
  · intro hnone
    exact condLoop_none model (List.range 10) hnone
  · intro e he
    cases ht : TSNE_fit_transform tsneCore 2 (some 0) ambientSeed z_loc with
    | error e1 =>
      simp [plot_tsne, ht] at he
      rw [he]
    | ok z_embed => simp [plot_tsne, ht] at he

/-- Witness for C5: a model emitting length-5 samples makes the conditional
grid surface exactly the underlying shape-mismatch failure. -/
theorem vae_plots_no_validation_witness :
    ∃ i ∈ List.range 10, ∃ rr ∈ List.range 100,
      view_1_28_28 (badModel xs0 (onehot i) rr) =
        Except.error (PyError.shapeMismatch 784 5) :=
  (vae_plots_no_validation_no_recovery badModel idCore 0 [] [] "VAE").1
    (PyError.shapeMismatch 784 5) (by decide)

/-- C6: every artifact path the module persists follows the documented
scheme: the loss-curve function adds files only at the fixed path
`./vae_results/test_elbo_vae.png`, and every path written by the embedding
plot lives under `./vae_results/` and is either the aggregate
`<name>_embedding.png` or a per-class `<name>_embedding_<class>.png` with a
class index below 10. -/
theorem artifact_paths_follow_naming_scheme (train_elbo test_elbo : List (Nat × ℚ))
    (fs : FS) (tsneCore : Nat → Nat → List (List ℚ) → List (List ℚ))
    (ambientSeed : Nat) (z_loc classes : List (List ℚ)) (name : String) :
    (∀ fs', plot_llk train_elbo test_elbo fs = Except.ok fs' →
      ∀ p ∈ fs'.files.map Prod.fst,
        p ∈ fs.files.map Prod.fst ∨ p = "./vae_results/test_elbo_vae.png") ∧
    (∀ p ∈ (plot_tsne tsneCore ambientSeed z_loc classes name).1.map Prod.fst,
      (∃ s, p = "./vae_results/" ++ s) ∧
      (p = tsneAggPath name ∨ ∃ ic, ic < 10 ∧ p = tsnePerClassPath name ic)) := by
  constructor
  · intro fs' hfs' p hp
    have hfiles : fs'.files =
        (llkOutPath, renderLlk train_elbo test_elbo) ::
          fs.files.filter (fun pr => pr.1 != llkOutPath) := by
      by_cases hd : "vae_results" ∈ fs.dirs
      · simp [plot_llk, pathMkdir, hd, writeFile] at hfs'
        rw [← hfs']
      · simp [plot_llk, pathMkdir, hd, writeFile] at hfs'
        rw [← hfs']
    rw [hfiles] at hp
    simp only [List.map_cons, List.mem_cons, List.mem_map] at hp
    rcases hp with hp | ⟨pr, hpr, rfl⟩
    · exact Or.inr hp
    · exact Or.inl (List.mem_map.2 ⟨pr, List.mem_of_mem_filter hpr, rfl⟩)
  · intro p hp
    cases ht : TSNE_fit_transform tsneCore 2 (some 0) ambientSeed z_loc with
    | error e => simp [plot_tsne, ht] at hp
    | ok z_embed =>
      simp only [plot_tsne, ht, List.map_append, List.map_map, List.mem_append,
        List.mem_map, List.mem_range, Function.comp] at hp
      rcases hp with ⟨ic, hic, rfl⟩ | hp
      · refine ⟨⟨name ++ "_embedding_" ++ toString ic ++ ".png", ?_⟩,
          Or.inr ⟨ic, hic, rfl⟩⟩
        simp [tsnePerClassPath, strAppendAssoc]
      · obtain ⟨a, ha, hap⟩ := hp
        rw [List.mem_singleton] at ha
        rw [ha] at hap
        rw [← hap]
        refine ⟨⟨name ++ "_embedding.png", ?_⟩, Or.inl rfl⟩
        simp [tsneAggPath, strAppendAssoc]

/-- Witness for C6: the aggregate path written by a concrete `plot_tsne` run
satisfies the naming scheme. -/
theorem artifact_paths_witness :
    (∃ s, tsneAggPath "VAE" = "./vae_results/" ++ s) ∧
    (tsneAggPath "VAE" = tsneAggPath "VAE" ∨
      ∃ ic, ic < 10 ∧ tsneAggPath "VAE" = tsnePerClassPath "VAE" ic) :=
  (artifact_paths_follow_naming_scheme [] [] emptyFS idCore 0 cexZ cexClasses "VAE").2
    (tsneAggPath "VAE") (by decide)

end VaePlots
